import Mathlib

/-!
A shallow embedding of the Loop & Chapter Playback Controller of the
guitar-looper application (src/components/VideoPlayer.tsx), together with
theorems settling the specification claims about it.

Numbers: playback positions are JS doubles in the source; they are
embedded as rationals, which is exact for every operation the controller
performs on them (min, max, comparison, and addition of the constant 30).

Persistence: localStorage is embedded as an association list from keys to
stored payloads; a payload either parses back to the list of loops that
was serialized (the JSON round trip is faithful on this record type) or
is corrupt and fails to parse.

External effects (media-element seeks, the chapter-extraction RPC) are
represented as explicit outputs and inputs of the transition functions.
-/

namespace GuitarLooper

/-- A committed practice loop, following the Loop interface of
VideoPlayer.tsx. -/
structure Loop where
  id : String
  name : String
  start : Rat
  «end» : Rat
  color : String
deriving DecidableEq, Repr

/-- An externally detected chapter (Chapter interface); the end field is
optional. -/
structure Chapter where
  id : String
  title : String
  start : Rat
  «end» : Option Rat
deriving DecidableEq, Repr

/-- The three view tabs of the navigation section. -/
inductive Tab where
  | loops
  | chapters
  | info
deriving DecidableEq, Repr

/-- The component state of VideoPlayer relevant to the controller: the
loop collection, the chapter list, the active-loop reference, the looping
flag, the pending A/B markers, the naming-dialog state, and the time and
duration reported by the media element. -/
structure PlayerState where
  loops : List Loop
  chapters : List Chapter
  activeLoopId : Option String
  isLooping : Bool
  showAddLoop : Bool
  newLoopName : String
  tempLoopStart : Option Rat
  tempLoopEnd : Option Rat
  currentTime : Rat
  duration : Rat
  activeTab : Tab
deriving DecidableEq, Repr

/-- The fixed six-color palette (loopColors, line 43). -/
def loopColors : List String :=
  ["#28a745", "#dc3545", "#007bff", "#ffc107", "#6f42c1", "#20c997"]

/-- The color expression used at both loop-creation sites:
loopColors[n % loopColors.length] where n is the current collection
size. -/
def nextColor (count : Nat) : String :=
  loopColors.getD (count % loopColors.length) ""

/-- JS String.prototype.trim: drop leading and trailing whitespace. It is
embedded structurally over the character list (rather than through
String.trim, whose aux functions are defined by well-founded recursion)
so that concrete states evaluate by kernel reduction. -/
def jsTrim (s : String) : String :=
  String.mk (((s.data.dropWhile Char.isWhitespace).reverse.dropWhile
    Char.isWhitespace).reverse)

/-- JS truthiness of a string-or-null/undefined value: null, undefined and
the empty string are falsy. -/
def strTruthy : Option String → Bool
  | none => false
  | some s => s != ""

/-- A stored localStorage payload: either serialized loop data or a
corrupt payload that JSON.parse rejects. -/
inductive StoredVal where
  | parsed (loops : List Loop)
  | corrupt
deriving DecidableEq, Repr

/-- localStorage embedded as an association list; the most recent setItem
for a key shadows earlier entries. -/
abbrev Store := List (String × StoredVal)

/-- The localStorage key for a video source (guitar-looper-src). -/
def storageKey (src : String) : String := "guitar-looper-" ++ src

/-- localStorage.getItem. -/
def storeGet (st : Store) (k : String) : Option StoredVal :=
  List.lookup k st

/-- localStorage.setItem: the new binding shadows any earlier one. -/
def storeSet (st : Store) (k : String) (v : StoredVal) : Store :=
  (k, v) :: st

/-- The body of the load effect (lines 108-119): read the payload for the
video key; an absent or corrupt payload degrades to the empty list. -/
def loadLoops (st : Store) (src : String) : List Loop :=
  match storeGet st (storageKey src) with
  | some (StoredVal.parsed ls) => ls
  | some StoredVal.corrupt => []
  | none => []

/-- The save effect (lines 130-138): skipped entirely when no video is set
or when the collection is empty; otherwise the full collection is written
under the video key. -/
def saveLoops (src : String) (loops : List Loop) (st : Store) : Store :=
  if src = "" ∨ loops = [] then st
  else storeSet st (storageKey src) (StoredVal.parsed loops)

/-- The video-change effect (lines 105-127): when a new video source is
set, its persisted loops are loaded and the dependent transient state is
reset; when the new source is falsy the effect returns without touching
anything. -/
def onVideoChange (newSrc : String) (st : Store) (s : PlayerState) : PlayerState :=
  if newSrc = "" then s
  else
    { s with
      loops := loadLoops st newSrc
      activeLoopId := none
      isLooping := false
      tempLoopStart := none
      tempLoopEnd := none
      chapters := [] }

/-- addLoop (lines 301-317), mirroring the source's early return: bail out
when either marker is unset or the trimmed name is empty, otherwise append
the min/max loop and reset the dialog state. The fresh id,
Date.now().toString() in the source, is passed in as a parameter; the getD
defaults are never reached, since the guard ensures both markers are set. -/
def addLoop (idv : String) (s : PlayerState) : PlayerState :=
  if s.tempLoopStart = none ∨ s.tempLoopEnd = none ∨ jsTrim s.newLoopName = "" then s
  else
    let newLoop : Loop :=
      { id := idv
        name := jsTrim s.newLoopName
        start := min (s.tempLoopStart.getD 0) (s.tempLoopEnd.getD 0)
        «end» := max (s.tempLoopStart.getD 0) (s.tempLoopEnd.getD 0)
        color := nextColor s.loops.length }
    { s with
      loops := s.loops ++ [newLoop]
      newLoopName := ""
      tempLoopStart := none
      tempLoopEnd := none
      showAddLoop := false }

/-- deleteLoop (lines 320-326): filter out the id, then clear the active
reference and the looping flag when the deleted id was the active one. -/
def deleteLoop (loopId : String) (s : PlayerState) : PlayerState :=
  let s1 := { s with loops := s.loops.filter (fun l => l.id != loopId) }
  if s.activeLoopId = some loopId then
    { s1 with activeLoopId := none, isLooping := false }
  else s1

/-- activateLoop (lines 329-336): returns the new state and the seek
command issued to the media element, if any. -/
def activateLoop (loopId : String) (s : PlayerState) : PlayerState × Option Rat :=
  ({ s with activeLoopId := some loopId, isLooping := true },
   (s.loops.find? (fun l => l.id == loopId)).map Loop.start)

/-- The active-loop enforcement effect (lines 175-184), run on every
position update: returns the seek command issued, if any. The early
return tests the JS truthiness of activeLoopId. -/
def loopEnforcement (s : PlayerState) : Option Rat :=
  if s.isLooping = false then none
  else
    match s.activeLoopId with
    | none => none
    | some aid =>
      if aid = "" then none
      else
        match s.loops.find? (fun l => l.id == aid) with
        | some l => if l.«end» ≤ s.currentTime then some l.start else none
        | none => none

/-- JS x or-else d on a number-or-undefined operand: undefined and 0 are
falsy and select d. -/
def jsOrNum : Option Rat → Rat → Rat
  | none, d => d
  | some e, d => if e = 0 then d else e

/-- createLoopFromChapter (lines 287-298). -/
def createLoopFromChapter (idv : String) (c : Chapter) (s : PlayerState) : PlayerState :=
  let newLoop : Loop :=
    { id := idv
      name := c.title
      start := c.start
      «end» := jsOrNum c.«end» (c.start + 30)
      color := nextColor s.loops.length }
  { s with loops := s.loops ++ [newLoop], activeTab := Tab.loops }

/-- detectChapters (lines 53-99). The outcome of the two backend calls
(check_ffmpeg followed by extract_chapters) is passed in as result; an
exception thrown by either call lands in the catch branch. Returns the
new state together with a flag recording whether the external call was
made. The try/catch swallows every failure, so the function is total. -/
def detectChapters (filePath : Option String) (result : Except String (List Chapter))
    (s : PlayerState) : PlayerState × Bool :=
  if s.duration = 0 ∨ s.duration < 30 then (s, false)
  else if !strTruthy filePath then ({ s with chapters := [] }, false)
  else
    match result with
    | Except.ok cs =>
      if cs.length > 0 then ({ s with chapters := cs }, true)
      else ({ s with chapters := [] }, true)
    | Except.error _ => ({ s with chapters := [] }, true)

/-- A fresh player state over a 100-second video. -/
def baseState : PlayerState :=
  { loops := []
    chapters := []
    activeLoopId := none
    isLooping := false
    showAddLoop := false
    newLoopName := ""
    tempLoopStart := none
    tempLoopEnd := none
    currentTime := 0
    duration := 100
    activeTab := Tab.loops }

/-- A state about to commit equal A and B markers, both at 5 seconds. -/
def c1State : PlayerState :=
  { baseState with tempLoopStart := some 5, tempLoopEnd := some 5, newLoopName := "x" }

/-- A state about to commit markers 9 and 4, named out of order. -/
def c1wState : PlayerState :=
  { baseState with tempLoopStart := some 9, tempLoopEnd := some 4, newLoopName := "riff" }

/-- A sample committed loop used in the persistence claims. -/
def c3Loop : Loop :=
  { id := "1", name := "solo", start := 10, «end» := 40, color := "#28a745" }

/-- A state with the naming dialog open on markers 7 and 3 and an
untrimmed name. -/
def c4wState : PlayerState :=
  { baseState with
    tempLoopStart := some 7
    tempLoopEnd := some 3
    newLoopName := " Solo "
    showAddLoop := true }

/-- Two committed loops used in the deletion claim. -/
def c6wLoopA : Loop :=
  { id := "a", name := "verse", start := 0, «end» := 8, color := "#28a745" }

/-- Second committed loop used in the deletion claim. -/
def c6wLoopB : Loop :=
  { id := "b", name := "chorus", start := 12, «end» := 20, color := "#dc3545" }

/-- A state holding two loops with the first one active and looping. -/
def c6wState : PlayerState :=
  { baseState with
    loops := [c6wLoopA, c6wLoopB]
    activeLoopId := some "a"
    isLooping := true }

/-- A state full of transient state about to be reset by a video change. -/
def c7wState : PlayerState :=
  { baseState with
    isLooping := true
    activeLoopId := some "z"
    tempLoopStart := some 1
    tempLoopEnd := some 2
    chapters := [{ id := "c", title := "T", start := 0, «end» := none }]
    showAddLoop := true }

/-- A state about to commit its first loop, markers 1 and 2, named "a". -/
def c8s0 : PlayerState :=
  { baseState with tempLoopStart := some 1, tempLoopEnd := some 2, newLoopName := "a" }

/-- After the first creation: one loop, palette index 0. -/
def c8s1 : PlayerState := addLoop "1" c8s0

/-- After the second creation: two loops, palette indices 0 and 1. -/
def c8s2 : PlayerState :=
  addLoop "2" { c8s1 with
    tempLoopStart := some 3
    tempLoopEnd := some 4
    newLoopName := "b" }

/-- After deleting the first loop: one loop left. -/
def c8s3 : PlayerState := deleteLoop "1" c8s2

/-- After the third creation ever, which follows a deletion. -/
def c8s4 : PlayerState :=
  addLoop "3" { c8s3 with
    tempLoopStart := some 5
    tempLoopEnd := some 6
    newLoopName := "c" }

/-- A sample extracted chapter used in the detection claim. -/
def c9Chapter : Chapter :=
  { id := "c1", title := "Intro", start := 0, «end» := some 30 }

/-- A chapter whose end is present but zero, used in the promotion claim. -/
def c10Chapter : Chapter :=
  { id := "c1", title := "Intro", start := 12, «end» := some 0 }

/-- C1: counterexample. Committing with pendingStart = pendingEnd = 5 is
neither rejected nor corrected: addLoop accepts it and a degenerate loop
with start = end enters the collection, refuting the claim that no loop
with start = end is ever added. -/
theorem c1_counterexample :
    ((addLoop "1" c1State).loops.any fun l => l.start == l.«end») = true ∧
    (addLoop "1" c1State).loops.length = c1State.loops.length + 1 := by
  constructor <;> decide

/-- C1 (amended): a commit through addLoop auto-corrects the order of the
two markers by swapping (start = min, end = max), so every loop it commits
satisfies start ≤ end, with start nonnegative whenever both markers are;
but a commit with equal markers is accepted, so start < end holds exactly
when the two pending markers differ. -/
theorem c1_amended (s : PlayerState) (idv : String) (a b : Rat)
    (hs : s.tempLoopStart = some a) (he : s.tempLoopEnd = some b)
    (hn : jsTrim s.newLoopName ≠ "") :
    (addLoop idv s).loops.dropLast = s.loops ∧
    ∀ l : Loop, (addLoop idv s).loops.getLast? = some l →
      l.start = min a b ∧ l.«end» = max a b ∧ l.start ≤ l.«end» ∧
      (l.start < l.«end» ↔ a ≠ b) ∧ (0 ≤ a → 0 ≤ b → 0 ≤ l.start) := by
  have hguard : ¬(s.tempLoopStart = none ∨ s.tempLoopEnd = none ∨
      jsTrim s.newLoopName = "") := by
    simp [hs, he, hn]
  unfold addLoop
  rw [if_neg hguard, hs, he]
  refine ⟨by simp, ?_⟩
  intro l hl
  rw [List.getLast?_concat] at hl
  cases hl
  exact ⟨rfl, rfl, min_le_max, min_lt_max, fun ha hb => le_min ha hb⟩

/-- C1 (amended) witness: the amended statement evaluated on the commit of
markers 9 and 4 under the name "riff". -/
theorem c1_amended_witness :
    (addLoop "7" c1wState).loops.dropLast = c1wState.loops ∧
    ((addLoop "7" c1wState).loops.getLast? =
        some (Loop.mk "7" "riff" 4 9 "#28a745") →
      (Loop.mk "7" "riff" 4 9 "#28a745").start = min 9 4 ∧
      (Loop.mk "7" "riff" 4 9 "#28a745").«end» = max 9 4 ∧
      (Loop.mk "7" "riff" 4 9 "#28a745").start ≤
        (Loop.mk "7" "riff" 4 9 "#28a745").«end» ∧
      ((Loop.mk "7" "riff" 4 9 "#28a745").start <
          (Loop.mk "7" "riff" 4 9 "#28a745").«end» ↔ (9 : Rat) ≠ 4) ∧
      (0 ≤ (9 : Rat) → 0 ≤ (4 : Rat) →
        0 ≤ (Loop.mk "7" "riff" 4 9 "#28a745").start)) :=
  have h := c1_amended c1wState "7" 9 4 rfl rfl (by decide)
  ⟨h.1, h.2 (Loop.mk "7" "riff" 4 9 "#28a745")⟩

/-- C2: counterexample. Activating the id "x" on a fresh state, whose loop
collection is empty so no loop has that id, is not a no-op: the active
reference becomes some "x" and the looping flag becomes true, refuting the
claim that the state is left exactly as it was. -/
theorem c2_counterexample :
    (activateLoop "x" baseState).1.activeLoopId ≠ baseState.activeLoopId ∧
    (activateLoop "x" baseState).1.isLooping ≠ baseState.isLooping := by
  constructor <;> decide

/-- C2 (amended): activating an id that identifies no loop in the
collection still sets the active-loop reference to that id and enables
looping; only the seek is skipped (the playback position is untouched),
and no error is visible to the caller. -/
theorem c2_amended (s : PlayerState) (idv : String)
    (h : s.loops.find? (fun l => l.id == idv) = none) :
    activateLoop idv s =
      ({ s with activeLoopId := some idv, isLooping := true }, none) := by
  unfold activateLoop
  rw [h]
  rfl

/-- C2 (amended) witness: the amended statement evaluated on the fresh
state and the unknown id "x". -/
theorem c2_amended_witness :
    activateLoop "x" baseState =
      ({ baseState with activeLoopId := some "x", isLooping := true }, none) :=
  c2_amended baseState "x" rfl

/-- C3: counterexample. The save effect skips the empty collection, so
saving [] for video "v" over a store that holds a previously saved
collection and then loading "v" in a fresh session yields the stale
earlier collection, not the empty one that was saved last: the round trip
fails for the empty collection. -/
theorem c3_counterexample :
    saveLoops "v" [] (saveLoops "v" [c3Loop] []) = saveLoops "v" [c3Loop] [] ∧
    loadLoops (saveLoops "v" [] (saveLoops "v" [c3Loop] [])) "v" = [c3Loop] ∧
    [c3Loop] ≠ ([] : List Loop) := by
  refine ⟨rfl, rfl, by decide⟩

/-- C3 (amended): the round trip holds for every non-empty collection and
non-empty video key — saving and then loading for the same key yields the
identical collection, same ids, names, bounds, colors and order — and each
such save writes the full collection immediately; but the empty collection
is never persisted: the save effect returns the store unchanged. -/
theorem c3_amended (st : Store) (src : String) (ls : List Loop)
    (hsrc : src ≠ "") (hls : ls ≠ []) :
    loadLoops (saveLoops src ls st) src = ls ∧ saveLoops src [] st = st := by
  constructor
  · unfold saveLoops
    rw [if_neg (by simp [hsrc, hls])]
    unfold loadLoops storeGet storeSet
    simp [List.lookup]
  · unfold saveLoops
    simp

/-- C3 (amended) witness: the amended statement evaluated on the
single-loop collection for video "v" over the empty store. -/
theorem c3_amended_witness :
    loadLoops (saveLoops "v" [c3Loop] []) "v" = [c3Loop] ∧
    saveLoops "v" [] [] = [] :=
  c3_amended [] "v" [c3Loop] (by decide) (by decide)

/-- C4: the commit succeeds exactly when both pending markers are set and
the trimmed name is non-empty; on success it appends the loop built from
min and max of the markers, the trimmed name and the palette color for the
current collection size, and resets the temp-marker state entirely — both
markers cleared, the dialog dismissed and the name field cleared; in every
other case the state is unchanged. -/
theorem c4_confirmed (s : PlayerState) (idv : String) :
    (∀ a b : Rat, s.tempLoopStart = some a → s.tempLoopEnd = some b →
      jsTrim s.newLoopName ≠ "" →
      addLoop idv s =
        { s with
          loops := s.loops ++
            [{ id := idv
               name := jsTrim s.newLoopName
               start := min a b
               «end» := max a b
               color := nextColor s.loops.length }]
          newLoopName := ""
          tempLoopStart := none
          tempLoopEnd := none
          showAddLoop := false }) ∧
    ((s.tempLoopStart = none ∨ s.tempLoopEnd = none ∨ jsTrim s.newLoopName = "") →
      addLoop idv s = s) := by
  constructor
  · intro a b hs he hn
    unfold addLoop
    rw [if_neg (by simp [hs, he, hn]), hs, he]
    rfl
  · intro h
    unfold addLoop
    rw [if_pos h]

/-- C4 witness: the commit evaluated on markers 7 and 3 with the untrimmed
name " Solo ". -/
theorem c4_confirmed_witness :
    addLoop "42" c4wState =
      { c4wState with
        loops := c4wState.loops ++
          [{ id := "42"
             name := jsTrim c4wState.newLoopName
             start := min 7 3
             «end» := max 7 3
             color := nextColor c4wState.loops.length }]
        newLoopName := ""
        tempLoopStart := none
        tempLoopEnd := none
        showAddLoop := false } :=
  (c4_confirmed c4wState "42").1 7 3 rfl rfl (by decide)

/-- C5: on a position update, a seek is issued if and only if looping is
enabled, the active reference is set (truthy in the source's test), the
referenced loop is found in the collection, and the position has reached
the loop's end; the seek target is then exactly the loop's start. -/
theorem c5_confirmed (s : PlayerState) (t : Rat) :
    loopEnforcement s = some t ↔
      s.isLooping = true ∧ ∃ a, s.activeLoopId = some a ∧ a ≠ "" ∧
        ∃ l, s.loops.find? (fun l => l.id == a) = some l ∧
          l.«end» ≤ s.currentTime ∧ t = l.start := by
  unfold loopEnforcement
  cases hb : s.isLooping with
  | false => simp
  | true =>
    simp only [Bool.true_eq_false, if_false]
    cases ha : s.activeLoopId with
    | none => simp
    | some a =>
      by_cases hae : a = ""
      · subst hae
        simp
      · cases hf : s.loops.find? (fun l => l.id == a) with
        | none => simp [hae, hf]
        | some l =>
          by_cases hc : l.«end» ≤ s.currentTime
          · simp [hae, hf, hc, eq_comm]
          · simp [hae, hf, hc]

/-- C6: deleteLoop removes exactly the loops bearing the given id and
keeps all the others in their order; when the deleted id is the active one
the looping flag is cleared and the active reference dropped, and when it
is not, both are left untouched. -/
theorem c6_confirmed (s : PlayerState) (idv : String) :
    (deleteLoop idv s).loops = s.loops.filter (fun l => l.id != idv) ∧
    (s.activeLoopId = some idv →
      (deleteLoop idv s).activeLoopId = none ∧
      (deleteLoop idv s).isLooping = false) ∧
    (s.activeLoopId ≠ some idv →
      (deleteLoop idv s).activeLoopId = s.activeLoopId ∧
      (deleteLoop idv s).isLooping = s.isLooping) := by
  unfold deleteLoop
  by_cases h : s.activeLoopId = some idv <;> simp [h]

/-- C6 witness: deleting the active loop "a" from the two-loop state
removes it, keeps loop "b", clears the active reference and stops
looping. -/
theorem c6_confirmed_witness :
    (deleteLoop "a" c6wState).loops = c6wState.loops.filter (fun l => l.id != "a") ∧
    (deleteLoop "a" c6wState).activeLoopId = none ∧
    (deleteLoop "a" c6wState).isLooping = false :=
  ⟨(c6_confirmed c6wState "a").1, (c6_confirmed c6wState "a").2.1 rfl⟩

/-- C7: when the video source changes to a non-empty source, the pending
markers are cleared, the active reference dropped, looping disabled, the
chapter list emptied — whatever their prior values — and the loop
collection is replaced by the persisted collection for the new key, which
is empty when nothing is stored under it. -/
theorem c7_confirmed (s : PlayerState) (st : Store) (newSrc : String)
    (h : newSrc ≠ "") :
    (onVideoChange newSrc st s).tempLoopStart = none ∧
    (onVideoChange newSrc st s).tempLoopEnd = none ∧
    (onVideoChange newSrc st s).activeLoopId = none ∧
    (onVideoChange newSrc st s).isLooping = false ∧
    (onVideoChange newSrc st s).chapters = [] ∧
    (onVideoChange newSrc st s).loops = loadLoops st newSrc ∧
    (storeGet st (storageKey newSrc) = none →
      (onVideoChange newSrc st s).loops = []) := by
  unfold onVideoChange
  rw [if_neg h]
  refine ⟨rfl, rfl, rfl, rfl, rfl, rfl, ?_⟩
  intro hn
  unfold loadLoops
  rw [hn]

/-- C7 witness: changing to video "v2" over the empty store resets every
transient field of a state that had them all populated. -/
theorem c7_confirmed_witness :
    (onVideoChange "v2" [] c7wState).tempLoopStart = none ∧
    (onVideoChange "v2" [] c7wState).tempLoopEnd = none ∧
    (onVideoChange "v2" [] c7wState).activeLoopId = none ∧
    (onVideoChange "v2" [] c7wState).isLooping = false ∧
    (onVideoChange "v2" [] c7wState).chapters = [] ∧
    (onVideoChange "v2" [] c7wState).loops = [] :=
  have h := c7_confirmed c7wState [] "v2" (by decide)
  ⟨h.1, h.2.1, h.2.2.1, h.2.2.2.1, h.2.2.2.2.1, h.2.2.2.2.2.2 rfl⟩

/-- C8: counterexample. Create loops "1" and "2", delete "1", then create
loop "3": it is the third loop ever created for the video, so the claim
predicts the palette color at index 2, "#007bff"; the code instead indexes
by the collection size at creation time and assigns index 1, "#dc3545". -/
theorem c8_counterexample :
    ((c8s4.loops.find? (fun l => l.id == "3")).map Loop.color) =
      some "#dc3545" ∧
    loopColors.getD (2 % loopColors.length) "" = "#007bff" ∧
    ((c8s4.loops.find? (fun l => l.id == "3")).map Loop.color) ≠
      some (loopColors.getD (2 % loopColors.length) "") := by
  refine ⟨by decide, by decide, by decide⟩

/-- C8 (amended): at both creation sites the new loop's color is the
palette entry indexed by the size of the loop collection at creation time
modulo the palette size; this coincides with creation order only as long
as no deletion has occurred before the creation. -/
theorem c8_amended (s : PlayerState) (idv : String) (a b : Rat) (c : Chapter)
    (hs : s.tempLoopStart = some a) (he : s.tempLoopEnd = some b)
    (hn : jsTrim s.newLoopName ≠ "") :
    (∀ l : Loop, (addLoop idv s).loops.getLast? = some l →
      l.color = loopColors.getD (s.loops.length % loopColors.length) "") ∧
    (∀ l : Loop, (createLoopFromChapter idv c s).loops.getLast? = some l →
      l.color = loopColors.getD (s.loops.length % loopColors.length) "") := by
  constructor
  · intro l hl
    unfold addLoop at hl
    rw [if_neg (by simp [hs, he, hn])] at hl
    simp only [List.getLast?_concat, Option.some.injEq] at hl
    subst hl
    rfl
  · intro l hl
    unfold createLoopFromChapter at hl
    simp only [List.getLast?_concat, Option.some.injEq] at hl
    subst hl
    rfl

/-- C8 (amended) witness: the amended statement evaluated on the commit of
markers 1 and 2 named "a" over the fresh state, and on the promotion of
the sample chapter. -/
theorem c8_amended_witness :
    ((addLoop "1" c8s0).loops.getLast? = some (Loop.mk "1" "a" 1 2 "#28a745") →
      (Loop.mk "1" "a" 1 2 "#28a745").color =
        loopColors.getD (c8s0.loops.length % loopColors.length) "") ∧
    ((createLoopFromChapter "1" c9Chapter c8s0).loops.getLast? =
        some (Loop.mk "1" "Intro" 0 30 "#28a745") →
      (Loop.mk "1" "Intro" 0 30 "#28a745").color =
        loopColors.getD (c8s0.loops.length % loopColors.length) "") :=
  have h := c8_amended c8s0 "1" 1 2 c9Chapter rfl rfl (by decide)
  ⟨h.1 (Loop.mk "1" "a" 1 2 "#28a745"),
   h.2 (Loop.mk "1" "Intro" 0 30 "#28a745")⟩

/-- C9: with a sufficient known duration, a missing or empty file path
short-circuits to an empty chapter list without making the external call;
a successful call replaces the chapter list wholesale with the returned
list; a failed call clears the chapter list; and detectChapters is a total
function — the catch swallows the failure, so none is visible to the
caller. -/
theorem c9_confirmed (s : PlayerState) (fp : Option String)
    (res : Except String (List Chapter)) (hd : 30 ≤ s.duration) :
    (strTruthy fp = false →
      detectChapters fp res s = ({ s with chapters := [] }, false)) ∧
    (∀ cs, strTruthy fp = true → res = Except.ok cs →
      detectChapters fp res s = ({ s with chapters := cs }, true)) ∧
    (∀ e, strTruthy fp = true → res = Except.error e →
      detectChapters fp res s = ({ s with chapters := [] }, true)) := by
  have hguard : ¬(s.duration = 0 ∨ s.duration < 30) := by
    push_neg
    constructor
    · intro h0
      rw [h0] at hd
      exact absurd hd (by norm_num)
    · linarith
  refine ⟨?_, ?_, ?_⟩
  · intro hfp
    unfold detectChapters
    rw [if_neg hguard, hfp]
    rfl
  · intro cs hfp hres
    unfold detectChapters
    rw [if_neg hguard, hfp, hres]
    by_cases hl : cs = []
    · subst hl
      rfl
    · have : cs.length > 0 := List.length_pos.mpr hl
      simp only [Bool.not_true, Bool.false_eq_true, if_false, this, if_pos]
  · intro e hfp hres
    unfold detectChapters
    rw [if_neg hguard, hfp, hres]
    rfl

/-- C9 witness: over the fresh 100-second state, a missing path
short-circuits without the call, a failing call clears the list, and a
successful call installs the returned chapter. -/
theorem c9_confirmed_witness :
    detectChapters none (Except.error "no ffmpeg") baseState =
      ({ baseState with chapters := [] }, false) ∧
    detectChapters (some "/a.mp4") (Except.error "no ffmpeg") baseState =
      ({ baseState with chapters := [] }, true) ∧
    detectChapters (some "/a.mp4") (Except.ok [c9Chapter]) baseState =
      ({ baseState with chapters := [c9Chapter] }, true) :=
  ⟨(c9_confirmed baseState none (Except.error "no ffmpeg") (by decide)).1 rfl,
   (c9_confirmed baseState (some "/a.mp4") (Except.error "no ffmpeg")
      (by decide)).2.2 "no ffmpeg" rfl rfl,
   (c9_confirmed baseState (some "/a.mp4") (Except.ok [c9Chapter])
      (by decide)).2.1 [c9Chapter] rfl rfl⟩

/-- C10: promoting a chapter appends, unconditionally and with no ordering
or start-before-end validation, a loop named by the chapter's title and
starting at the chapter's start; an absent or zero chapter end yields
end = start + 30, and a nonzero end is taken verbatim. -/
theorem c10_confirmed (s : PlayerState) (idv : String) (c : Chapter) :
    (createLoopFromChapter idv c s).loops.dropLast = s.loops ∧
    ∀ l : Loop, (createLoopFromChapter idv c s).loops.getLast? = some l →
      l.name = c.title ∧ l.start = c.start ∧
      ((c.«end» = none ∨ c.«end» = some 0) → l.«end» = c.start + 30) ∧
      (∀ e : Rat, c.«end» = some e → e ≠ 0 → l.«end» = e) := by
  unfold createLoopFromChapter
  refine ⟨by simp, ?_⟩
  intro l hl
  simp only [List.getLast?_concat, Option.some.injEq] at hl
  subst hl
  refine ⟨rfl, rfl, ?_, ?_⟩
  · rintro (h | h) <;> simp [jsOrNum, h]
  · intro e he hne
    simp [jsOrNum, he, hne]

/-- C10 witness: promoting the chapter whose end is present but zero
appends a loop named "Intro" at start 12 with the synthesized end 42. -/
theorem c10_confirmed_witness :
    (createLoopFromChapter "9" c10Chapter baseState).loops.dropLast =
      baseState.loops ∧
    ((createLoopFromChapter "9" c10Chapter baseState).loops.getLast? =
        some (Loop.mk "9" "Intro" 12 42 "#28a745") →
      (Loop.mk "9" "Intro" 12 42 "#28a745").name = c10Chapter.title ∧
      (Loop.mk "9" "Intro" 12 42 "#28a745").start = c10Chapter.start ∧
      ((c10Chapter.«end» = none ∨ c10Chapter.«end» = some 0) →
        (Loop.mk "9" "Intro" 12 42 "#28a745").«end» = c10Chapter.start + 30)) :=
  have h := c10_confirmed baseState "9" c10Chapter
  ⟨h.1, fun hl =>
    ⟨(h.2 (Loop.mk "9" "Intro" 12 42 "#28a745") hl).1,
     (h.2 (Loop.mk "9" "Intro" 12 42 "#28a745") hl).2.1,
     (h.2 (Loop.mk "9" "Intro" 12 42 "#28a745") hl).2.2.1⟩⟩

end GuitarLooper
